import Mathlib

/-!
Verification of the a2akit task lifecycle engine and protocol execution path.

This file gives a shallow embedding, in Lean, of the core of the repository:
the task state machine (`src/packages/core/src/task/state-machine.ts`), the
in-memory task store (`src/packages/core/src/task/manager.ts`), the method
handlers (`createSendHandler` / `createGetHandler` / `createCancelHandler`
in `handlers.ts`), the streaming execution path (`handleStreamingRequest`
in `streaming-handler.ts`), the SSE writer (`sse.ts`) and the JSON-RPC
router (`router.ts`), together with theorems settling the specification
claims about them.

Modelling conventions:
- JavaScript `undefined` / optional fields are modelled with `Option`.
- JS object mutation is modelled by explicit state passing: the task store
  is a finite map threaded through every operation, and each mutator
  returns the updated store.  Aliasing of a task object held by a handler
  across store mutations is modelled by re-reading the task from the store
  (or using the task value the mutator returns, which is the stored one).
- Thrown exceptions are modelled with `Except` / an explicit error slot in
  the result tuple.  `try`/`catch`/`finally` blocks are translated into
  explicit case analysis that mirrors the source control flow.
- Timestamps (`new Date().toISOString()`) are modelled by an abstract
  clock value `now : Nat` passed to every operation that stamps a status.
- The opaque `metadata` record bags carried by tasks, messages and parts
  are modelled only to the extent the core reads them (the `skillId`
  field); the rest is irrelevant to every claim and omitted.
-/

namespace A2A

/-- The seven task states of `TaskState` in `types/protocol.ts`. -/
inductive TaskState
  | submitted
  | working
  | inputRequired
  | completed
  | canceled
  | failed
  | unknown
deriving DecidableEq, Repr, Fintype

/-- The wire string of each state (the TS string literals). -/
def TaskState.str : TaskState → String
  | .submitted => "submitted"
  | .working => "working"
  | .inputRequired => "input-required"
  | .completed => "completed"
  | .canceled => "canceled"
  | .failed => "failed"
  | .unknown => "unknown"

/-- The `VALID_TRANSITIONS` from `state-machine.ts`: key is the source state,
value the array of valid target states, in source order. -/
def VALID_TRANSITIONS : TaskState → List TaskState
  | .submitted => [.working, .canceled, .failed]
  | .working => [.completed, .failed, .canceled, .inputRequired]
  | .inputRequired => [.working, .canceled, .failed]
  | .completed => []
  | .canceled => []
  | .failed => []
  | .unknown => [.submitted, .working, .completed, .failed, .canceled, .inputRequired]

/-- The `TERMINAL_STATES` from `state-machine.ts`. -/
def TERMINAL_STATES : List TaskState := [.completed, .canceled, .failed]

/-- The `TaskStateMachine.canTransition`: the transition map is total, so the
`?? false` fallback of the source collapses. -/
def canTransition (src tgt : TaskState) : Bool :=
  (VALID_TRANSITIONS src).contains tgt

/-- The `TaskStateMachine.isTerminal`. -/
def isTerminal (s : TaskState) : Bool :=
  TERMINAL_STATES.contains s

/-- The `TaskStateMachine.getValidTransitions` (the source returns a fresh copy
of the array; copying is identity here). -/
def getValidTransitions (src : TaskState) : List TaskState :=
  VALID_TRANSITIONS src

/-- The transition table of spec section 4.1, transcribed from the spec's
words (for the refinement check of claim C1). -/
def specTransitionTable : TaskState → List TaskState
  | .submitted => [.working, .canceled, .failed]
  | .working => [.completed, .failed, .canceled, .inputRequired]
  | .inputRequired => [.working, .canceled, .failed]
  | .completed => []
  | .canceled => []
  | .failed => []
  | .unknown => [.submitted, .working, .completed, .failed, .canceled, .inputRequired]

/-! ## Data model (`types/protocol.ts`) -/

/-- The `FileContent` from `types/protocol.ts`. -/
structure FileContent where
  name : Option String := none
  mimeType : Option String := none
  bytes : Option String := none
  uri : Option String := none
deriving DecidableEq, Repr

/-- The `Part` from `types/protocol.ts`: the tagged union of `TextPart`,
`FilePart` and `DataPart`.  The `data` payload of a `DataPart` is an
opaque JSON object/array never inspected by the core; it is modelled as an
opaque string.  The optional per-part `metadata` bag is never read by the
core and is omitted. -/
inductive Part
  | text (text : String)
  | file (file : FileContent)
  | data (data : String)
deriving DecidableEq, Repr

/-- The `isTextPart` from `types/protocol.ts`. -/
def isTextPart : Part → Bool
  | .text _ => true
  | _ => false

/-- The `MessageRole` from `types/protocol.ts`. -/
inductive MessageRole
  | user
  | agent
deriving DecidableEq, Repr

/-- The `Message` from `types/protocol.ts` (the unused optional `messageId`
and `metadata` fields are omitted). -/
structure Message where
  role : MessageRole
  parts : List Part
deriving DecidableEq, Repr

/-- The `TaskStatus` from `types/protocol.ts`; the ISO-8601 `timestamp` string
is modelled as an abstract clock value. -/
structure TaskStatus where
  state : TaskState
  message : Option Message := none
  timestamp : Option Nat := none
deriving DecidableEq, Repr

/-- The `Artifact` from `types/protocol.ts` (unused `artifactId`,
`description` and `metadata` omitted). -/
structure Artifact where
  name : Option String := none
  parts : List Part
  index : Option Nat := none
  append : Option Bool := none
  lastChunk : Option Bool := none
deriving DecidableEq, Repr

/-- The request `metadata` bag as the core reads it: only the `skillId`
key is ever accessed (`metadata?.skillId` in `handlers.ts` and
`streaming-handler.ts`); the remaining keys are opaque. -/
structure SendMetadata where
  skillId : Option String := none
  extra : List (String × String) := []
deriving DecidableEq, Repr

/-- The `Task` from `types/protocol.ts`.  `history` and `artifacts` are
optional arrays in the source, but `TaskManager.create` always initialises
them to `[]` and every store operation normalises them with `?? []`, so
they are modelled as plain lists. -/
structure Task where
  id : String
  contextId : Option String := none
  status : TaskStatus
  history : List Message := []
  artifacts : List Artifact := []
  metadata : Option SendMetadata := none
deriving DecidableEq, Repr

/-! ## Errors (`errors/index.ts`, `types/jsonrpc.ts`) -/

/-- The `data` payloads attached to the error classes in
`errors/index.ts`. -/
inductive ErrData
  | fieldName (field : String)
  | taskRef (taskId : String)
  | notCancelableData (taskId : String) (currentState : TaskState)
  | transition (taskId : String) (src tgt : TaskState)
  | skillRef (skillId : String)
deriving DecidableEq, Repr

/-- The `A2AError` subclasses of `errors/index.ts` that the verified core
can raise, plus the generic `A2AError(message, -32603)` wrapper built by
`toA2AError`. -/
inductive A2AErr
  | taskNotFound (taskId : String)
  | taskNotCancelable (taskId : String) (currentState : TaskState)
  | invalidStateTransition (taskId : String) (src tgt : TaskState)
  | skillNotFound (skillId : String)
  | invalidParams (msg : String) (field : Option String)
  | internalErr (msg : String)
deriving DecidableEq, Repr

/-- The `message` string each error constructor passes to `super` in
`errors/index.ts`. -/
def A2AErr.message : A2AErr → String
  | .taskNotFound taskId => "Task not found: " ++ taskId
  | .taskNotCancelable taskId currentState =>
      "Task \"" ++ taskId ++ "\" cannot be canceled in state: " ++ currentState.str
  | .invalidStateTransition taskId src tgt =>
      "Invalid state transition for task \"" ++ taskId ++ "\": "
        ++ src.str ++ " -> " ++ tgt.str
  | .skillNotFound skillId => "Skill not found: " ++ skillId
  | .invalidParams msg _ => msg
  | .internalErr msg => msg

/-- The JSON-RPC `code` of each error (`A2AErrorCodes` in
`types/jsonrpc.ts`): `TASK_NOT_FOUND = -32001`,
`TASK_NOT_CANCELABLE = -32002`, `UNSUPPORTED_OPERATION = -32004`. -/
def A2AErr.code : A2AErr → Int
  | .taskNotFound _ => -32001
  | .taskNotCancelable _ _ => -32002
  | .invalidStateTransition _ _ _ => -32004
  | .skillNotFound _ => -32004
  | .invalidParams _ _ => -32602
  | .internalErr _ => -32603

/-- The `data` payload each error constructor passes to `super`. -/
def A2AErr.data : A2AErr → Option ErrData
  | .taskNotFound taskId => some (.taskRef taskId)
  | .taskNotCancelable taskId st => some (.notCancelableData taskId st)
  | .invalidStateTransition taskId src tgt => some (.transition taskId src tgt)
  | .skillNotFound skillId => some (.skillRef skillId)
  | .invalidParams _ field => field.map .fieldName
  | .internalErr _ => none

/-- A thrown JavaScript error as the dispatcher and the handlers see it:
either one of the `A2AError` subclasses above or a plain `Error` carrying
only a message (e.g. an exception raised by a skill body). -/
inductive JsError
  | a2a (e : A2AErr)
  | plain (msg : String)
deriving DecidableEq, Repr

/-- The `error instanceof Error ? error.message : String(error)`. -/
def JsError.message : JsError → String
  | .a2a e => e.message
  | .plain msg => msg

/-- The `toA2AError` from `errors/index.ts`: passes `A2AError` instances
through unchanged and wraps any other error as
`new A2AError(error.message, -32603)`. -/
def toA2AError : JsError → A2AErr
  | .a2a e => e
  | .plain msg => .internalErr msg

/-! ## Task store (`task/manager.ts`) -/

/-- Options for `TaskManager.create`. -/
structure CreateTaskOptions where
  id : String
  contextId : Option String := none
  metadata : Option SendMetadata := none
deriving Repr

/-- The `TaskManager`'s private `tasks = new Map<string, Task>()`,
modelled as a finite map from ids to tasks.  Only `get`/`has`/`set` are
exercised by the claims, so the map is a plain function. -/
structure TaskManager where
  tasks : String → Option Task

namespace TaskManager

/-- The `TaskManager.get`. -/
def get (m : TaskManager) (id : String) : Option Task :=
  m.tasks id

/-- The `this.tasks.set(id, task)`. -/
def setTask (m : TaskManager) (id : String) (t : Task) : TaskManager :=
  ⟨fun k => if k = id then some t else m.tasks k⟩

/-- The `TaskManager.has`. -/
def has (m : TaskManager) (id : String) : Bool :=
  (m.tasks id).isSome

/-- The `TaskManager.create`: returns the existing task unchanged when the id
is present, otherwise inserts a fresh task in `submitted` state with empty
history and artifacts. -/
def create (m : TaskManager) (options : CreateTaskOptions) (now : Nat) :
    Task × TaskManager :=
  match m.tasks options.id with
  | some t => (t, m)
  | none =>
    let task : Task :=
      { id := options.id
        contextId := options.contextId
        status := { state := .submitted, timestamp := some now }
        history := []
        artifacts := []
        metadata := options.metadata }
    (task, m.setTask options.id task)

/-- The `TaskManager.getOrThrow`. -/
def getOrThrow (m : TaskManager) (id : String) : Except A2AErr Task :=
  match m.tasks id with
  | some t => .ok t
  | none => .error (.taskNotFound id)

/-- The `TaskManager.updateStatus`: validates the transition through the state
machine, then replaces the status (the message field is set only when a
status message was supplied). -/
def updateStatus (m : TaskManager) (id : String) (state : TaskState)
    (statusMessage : Option Message) (now : Nat) :
    Except A2AErr (Task × TaskManager) :=
  match m.getOrThrow id with
  | .error e => .error e
  | .ok task =>
    if canTransition task.status.state state = false then
      .error (.invalidStateTransition id task.status.state state)
    else
      let newStatus : TaskStatus :=
        { state := state, timestamp := some now, message := statusMessage }
      let task' := { task with status := newStatus }
      .ok (task', m.setTask id task')

/-- The `TaskManager.setWorking`. -/
def setWorking (m : TaskManager) (id : String) (now : Nat) :
    Except A2AErr (Task × TaskManager) :=
  m.updateStatus id .working none now

/-- The `TaskManager.setCompleted`. -/
def setCompleted (m : TaskManager) (id : String) (message : Option Message)
    (now : Nat) : Except A2AErr (Task × TaskManager) :=
  m.updateStatus id .completed message now

/-- The `TaskManager.setFailed`. -/
def setFailed (m : TaskManager) (id : String) (message : Option Message)
    (now : Nat) : Except A2AErr (Task × TaskManager) :=
  m.updateStatus id .failed message now

/-- The `TaskManager.setCanceled`. -/
def setCanceled (m : TaskManager) (id : String) (now : Nat) :
    Except A2AErr (Task × TaskManager) :=
  m.updateStatus id .canceled none now

/-- The `TaskManager.appendHistory`. -/
def appendHistory (m : TaskManager) (id : String) (message : Message) :
    Except A2AErr (Task × TaskManager) :=
  match m.getOrThrow id with
  | .error e => .error e
  | .ok task =>
    let task' := { task with history := task.history ++ [message] }
    .ok (task', m.setTask id task')

/-- The `TaskManager.addArtifact`. -/
def addArtifact (m : TaskManager) (id : String) (artifact : Artifact) :
    Except A2AErr (Task × TaskManager) :=
  match m.getOrThrow id with
  | .error e => .error e
  | .ok task =>
    let task' := { task with artifacts := task.artifacts ++ [artifact] }
    .ok (task', m.setTask id task')

end TaskManager

/-- The in-place append step of `TaskManager.updateArtifact` on the
existing artifact, when the index is in bounds:
`if (artifact.append && existing.parts.length > 0) { ... }` — when the
delta's first part and the existing artifact's last part are both text
parts the texts are concatenated, otherwise the delta's first part (if
any) is pushed. -/
def Artifact.applyAppend (existing delta : Artifact) : Artifact :=
  if delta.append = some true ∧ existing.parts.length > 0 then
    match delta.parts.head? with
    | none => existing
    | some newPart =>
      match existing.parts.getLast?, newPart with
      | some (.text lastText), .text newText =>
        { existing with
          parts := existing.parts.dropLast ++ [.text (lastText ++ newText)] }
      | _, _ => { existing with parts := existing.parts ++ [newPart] }
  else existing

/-- The `lastChunk` overwrite step of `TaskManager.updateArtifact`:
`if (artifact.lastChunk !== undefined) existing.lastChunk = artifact.lastChunk`. -/
def Artifact.applyLastChunk (existing delta : Artifact) : Artifact :=
  match delta.lastChunk with
  | some b => { existing with lastChunk := some b }
  | none => existing

/-- The `TaskManager.updateArtifact`: updates the artifact at `artifactIndex`
in place when the index is within bounds, otherwise appends the delta as
a new artifact. -/
def TaskManager.updateArtifact (m : TaskManager) (id : String)
    (artifactIndex : Nat) (artifact : Artifact) :
    Except A2AErr (Task × TaskManager) :=
  match m.getOrThrow id with
  | .error e => .error e
  | .ok task =>
    if artifactIndex < task.artifacts.length then
      let existing := task.artifacts.getD artifactIndex { parts := [] }
      let existing' := (existing.applyAppend artifact).applyLastChunk artifact
      let task' := { task with artifacts := task.artifacts.set artifactIndex existing' }
      .ok (task', m.setTask id task')
    else
      let task' := { task with artifacts := task.artifacts ++ [artifact] }
      .ok (task', m.setTask id task')

/-! ## Skill invoker contract (`server/invoker.ts`) -/

/-- The result of a skill invocation (`SkillResult` in `invoker.ts`):
either a single string or an async generator of string chunks.  A lazy,
finite chunk sequence is modelled as the list of chunks it yields. -/
inductive SkillResult
  | single (s : String)
  | streamed (chunks : List String)
deriving DecidableEq, Repr

/-- The face of `SkillInvoker` that the handlers consume: a registry
lookup plus an invocation function.  The decorator/reflection-based
parameter extraction inside `invoke` is opaque to the handlers; its only
observable behaviour is the returned result or thrown error. -/
structure SkillInvoker where
  hasSkill : String → Bool
  invoke : String → Message → Task → Except JsError SkillResult

/-! ## Method handlers (`server/handlers.ts`) -/

/-- The `SendParams` from `handlers.ts`.  `message` is typed as required in TS
but checked at runtime (`if (!message)`), hence `Option` here. -/
structure SendParams where
  id : String
  contextId : Option String := none
  message : Option Message := none
  metadata : Option SendMetadata := none
deriving Repr

/-- The `GetParams` from `handlers.ts`. -/
structure GetParams where
  id : String
  historyLength : Option Nat := none
deriving Repr

/-- The `CancelParams` from `handlers.ts`. -/
structure CancelParams where
  id : String
deriving Repr

/-- The `catch` block of the handler returned by `createSendHandler`:
transition the task to `failed` carrying `"Error: " + message`, then
rethrow the original error.  (If `setFailed` itself throws, that error
propagates instead, as in JS.) -/
def sendCatch (tm : TaskManager) (id : String) (err : JsError) (now : Nat) :
    TaskManager × Except JsError Task :=
  let failureMessage : Message :=
    { role := .agent, parts := [.text ("Error: " ++ err.message)] }
  match tm.setFailed id (some failureMessage) now with
  | .ok (_, tm') => (tm', .error err)
  | .error e2 => (tm, .error (.a2a e2))

/-- The handler returned by `createSendHandler` in `handlers.ts`.  The
returned pair is the task store after the call and the call's outcome
(`.error` = the handler threw).  Note the JS truthiness of the `skillId`
check: a present-but-empty string is treated as missing. -/
def sendTaskHandler (tm₀ : TaskManager) (invoker : SkillInvoker)
    (params : SendParams) (now : Nat) : TaskManager × Except JsError Task :=
  if params.id = "" then
    (tm₀, .error (.a2a (.invalidParams "Missing required parameter: id" (some "id"))))
  else match params.message with
  | none =>
    (tm₀, .error (.a2a (.invalidParams "Missing required parameter: message" (some "message"))))
  | some message =>
  match params.metadata >>= SendMetadata.skillId with
  | none =>
    (tm₀, .error (.a2a (.invalidParams
      "Missing required metadata.skillId - explicit skill routing required"
      (some "metadata.skillId"))))
  | some skillId =>
  if skillId = "" then
    (tm₀, .error (.a2a (.invalidParams
      "Missing required metadata.skillId - explicit skill routing required"
      (some "metadata.skillId"))))
  else if invoker.hasSkill skillId = false then
    (tm₀, .error (.a2a (.invalidParams ("Unknown skill: " ++ skillId)
      (some "metadata.skillId"))))
  else
    -- create or get existing task
    let tm₁ :=
      match tm₀.get params.id with
      | some _ => tm₀
      | none =>
        (tm₀.create
          { id := params.id, contextId := params.contextId,
            metadata := params.metadata } now).2
    -- store user message in history
    match tm₁.appendHistory params.id message with
    | .error e => (tm₁, .error (.a2a e))
    | .ok (_, tm₂) =>
    -- transition to working (not inside the try block)
    match tm₂.setWorking params.id now with
    | .error e => (tm₂, .error (.a2a e))
    | .ok (taskW, tm₃) =>
    -- try { invoke … } catch { setFailed; rethrow }
    match invoker.invoke skillId message taskW with
    | .error e => sendCatch tm₃ params.id e now
    | .ok result =>
      let responseText :=
        match result with
        | .single s => s
        | .streamed chunks => String.join chunks
      let responseMessage : Message :=
        { role := .agent, parts := [.text responseText] }
      match tm₃.setCompleted params.id (some responseMessage) now with
      | .error e => sendCatch tm₃ params.id (.a2a e) now
      | .ok (_, tm₄) =>
      match tm₄.appendHistory params.id responseMessage with
      | .error e => sendCatch tm₄ params.id (.a2a e) now
      | .ok (_, tm₅) =>
      match tm₅.getOrThrow params.id with
      | .error e => sendCatch tm₅ params.id (.a2a e) now
      | .ok t => (tm₅, .ok t)

/-- The `Array.prototype.slice(-n)` on `task.history` in `createGetHandler`:
for `n > 0` it keeps the last `min(n, length)` entries, but `slice(-0)`
is `slice(0)`, which returns the whole array. -/
def sliceLast (l : List Message) (n : Nat) : List Message :=
  if n = 0 then l else l.drop (l.length - n)

/-- The handler returned by `createGetHandler` in `handlers.ts`.  The
handler never mutates the store: when `historyLength` is provided it
returns a shallow copy with truncated history, leaving the stored task
untouched (which the purely functional reading makes automatic). -/
def getTaskHandler (tm : TaskManager) (params : GetParams) :
    Except A2AErr Task :=
  if params.id = "" then
    .error (.invalidParams "Missing required parameter: id" (some "id"))
  else
    match tm.getOrThrow params.id with
    | .error e => .error e
    | .ok task =>
      match params.historyLength with
      | some n => .ok { task with history := sliceLast task.history n }
      | none => .ok task

/-- The handler returned by `createCancelHandler` in `handlers.ts`:
validates `id` and delegates to `TaskManager.setCanceled`. -/
def cancelTaskHandler (tm : TaskManager) (params : CancelParams) (now : Nat) :
    TaskManager × Except A2AErr Task :=
  if params.id = "" then
    (tm, .error (.invalidParams "Missing required parameter: id" (some "id")))
  else
    match tm.setCanceled params.id now with
    | .ok (t, tm') => (tm', .ok t)
    | .error e => (tm, .error e)

/-! ## SSE writer (`server/sse.ts`) -/

/-- A JSON id value as it appears in request/response envelopes and SSE
events: a JS value that is a string, a number, `null`, or absent
(`undefined`). -/
inductive JsonValueId
  | undef
  | nul
  | str (s : String)
  | num (n : Int)
deriving DecidableEq, Repr

/-- The JS nullish-coalescing `id ?? null`. -/
def JsonValueId.orNull : JsonValueId → JsonValueId
  | .undef => .nul
  | .nul => .nul
  | .str s => .str s
  | .num n => .num n

/-- The `result` payload of a streamed JSON-RPC event:
`TaskStatusUpdateEvent` or `TaskArtifactUpdateEvent` from `sse.ts`. -/
inductive StreamEventBody
  | statusEvt (taskId : String) (status : TaskStatus) (finalFlag : Option Bool)
  | artifactEvt (taskId : String) (artifact : Artifact)
deriving DecidableEq, Repr

/-- One SSE `data:` payload: a JSON-RPC wrapper with a `result` body
(`SSEWriter.write`) or an `error` body (`SSEWriter.writeError`). -/
inductive StreamEvent
  | resultEvt (requestId : JsonValueId) (body : StreamEventBody)
  | errorEvt (requestId : JsonValueId) (code : Int) (message : String)
      (data : Option ErrData)
deriving DecidableEq, Repr

/-- The observable state of `SSEWriter`: the ordered event payloads
written so far, the `closed` flag, the response's `writableEnded` flag,
and a count of how many times `res.end()` was actually called (to state
"closed exactly once"). -/
structure SSEWriter where
  events : List StreamEvent := []
  closed : Bool := false
  writableEnded : Bool := false
  resEndCalls : Nat := 0
deriving DecidableEq, Repr

namespace SSEWriter

/-- The `SSEWriter.isOpen`. -/
def isOpen (w : SSEWriter) : Bool :=
  !w.closed && !w.writableEnded

/-- The private `writeEvent`: drops the event when the stream is not
open, otherwise appends it to the wire. -/
def writeEvent (w : SSEWriter) (e : StreamEvent) : SSEWriter :=
  if w.isOpen then { w with events := w.events ++ [e] } else w

/-- The `SSEWriter.write`: wraps a result in a JSON-RPC envelope with
`id: requestId ?? null`. -/
def write (w : SSEWriter) (body : StreamEventBody) (requestId : JsonValueId) :
    SSEWriter :=
  w.writeEvent (.resultEvt requestId.orNull body)

/-- The `SSEWriter.writeTaskStatus`. -/
def writeTaskStatus (w : SSEWriter) (taskId : String) (status : TaskStatus)
    (finalFlag : Option Bool) (requestId : JsonValueId) : SSEWriter :=
  w.write (.statusEvt taskId status finalFlag) requestId

/-- The `SSEWriter.writeArtifact`. -/
def writeArtifact (w : SSEWriter) (taskId : String) (artifact : Artifact)
    (requestId : JsonValueId) : SSEWriter :=
  w.write (.artifactEvt taskId artifact) requestId

/-- The `SSEWriter.writeError`. -/
def writeError (w : SSEWriter) (code : Int) (message : String)
    (data : Option ErrData) (requestId : JsonValueId) : SSEWriter :=
  w.writeEvent (.errorEvt requestId.orNull code message data)

/-- The `SSEWriter.end` (named `endStream` since `end` is a Lean keyword):
calls `res.end()` only when still open, then marks the writer closed. -/
def endStream (w : SSEWriter) : SSEWriter :=
  if w.isOpen then
    { w with closed := true, writableEnded := true,
             resEndCalls := w.resEndCalls + 1 }
  else
    { w with closed := true }

/-- The non-wire observables of a writer bundled together: the `closed`
flag, the `writableEnded` flag and the `res.end()` call count. -/
def flags (w : SSEWriter) : Bool × Bool × Nat :=
  (w.closed, w.writableEnded, w.resEndCalls)

end SSEWriter

/-! ## Streaming execution path (`server/streaming-handler.ts`) -/

/-- The chunk-consuming loop of `handleStreamingRequest`:
`for await (const chunk of result) { if (!sse.isOpen()) break; … }`.
Each consumed chunk is pushed onto `collected` and emitted as an artifact
event `{index: 0, append: chunkIndex > 0, lastChunk: false}`. -/
def consumeChunks (sse : SSEWriter) (taskId : String) (reqId : JsonValueId) :
    List String → Nat → List String → SSEWriter × List String
  | [], _, collected => (sse, collected)
  | chunk :: rest, chunkIndex, collected =>
    if sse.isOpen = false then (sse, collected)
    else
      let artifact : Artifact :=
        { parts := [.text chunk], index := some 0,
          append := some (decide (0 < chunkIndex)), lastChunk := some false }
      consumeChunks (sse.writeArtifact taskId artifact reqId) taskId reqId
        rest (chunkIndex + 1) (collected ++ [chunk])

/-- The `catch` block of `handleStreamingRequest`: transition the task to
`failed` carrying `"Error: " + message` and emit a final status event.
Unlike the send handler, the streaming handler swallows the skill error
(no rethrow); only a failure of the catch block itself propagates. -/
def streamCatch (tm : TaskManager) (id : String) (err : JsError)
    (sse : SSEWriter) (reqId : JsonValueId) (now : Nat) :
    TaskManager × SSEWriter × Option JsError :=
  let failureMessage : Message :=
    { role := .agent, parts := [.text ("Error: " ++ err.message)] }
  match tm.setFailed id (some failureMessage) now with
  | .error e2 => (tm, sse, some (.a2a e2))
  | .ok (_, tm') =>
    match tm'.getOrThrow id with
    | .error e3 => (tm', sse, some (.a2a e3))
    | .ok t =>
      (tm', sse.writeTaskStatus id t.status (some true) reqId, none)

/-- The shared tail of the `try` block of `handleStreamingRequest` after
the artifacts have been emitted and stored: build the agent response
message from the first stored artifact's parts, complete the task, append
the agent message to history, and emit the final status event.  Errors
raised here are still inside the `try`, hence routed to the catch. -/
def streamComplete (tm : TaskManager) (id : String) (taskW : Task)
    (sse : SSEWriter) (reqId : JsonValueId) (now : Nat) :
    TaskManager × SSEWriter × Option JsError :=
  let storedTask := (tm.get id).getD taskW
  let responseMessage : Message :=
    { role := .agent
      parts :=
        match storedTask.artifacts.head? with
        | some a => a.parts
        | none => [.text ""] }
  match tm.setCompleted id (some responseMessage) now with
  | .error e => streamCatch tm id (.a2a e) sse reqId now
  | .ok (_, tm') =>
  match tm'.appendHistory id responseMessage with
  | .error e => streamCatch tm' id (.a2a e) sse reqId now
  | .ok (_, tm'') =>
  match tm''.getOrThrow id with
  | .error e => streamCatch tm'' id (.a2a e) sse reqId now
  | .ok t =>
    (tm'', sse.writeTaskStatus id t.status (some true) reqId, none)

/-- The `try { … } catch { … }` body of `handleStreamingRequest` (the
`finally { sse.end() }` is applied by the caller): invoke the skill, emit
its output as artifact events, store the artifact, then complete. -/
def streamTryCatch (tm : TaskManager) (id : String) (invoker : SkillInvoker)
    (skillId : String) (message : Message) (taskW : Task) (sse : SSEWriter)
    (reqId : JsonValueId) (now : Nat) :
    TaskManager × SSEWriter × Option JsError :=
  match invoker.invoke skillId message taskW with
  | .error e => streamCatch tm id e sse reqId now
  | .ok (.single s) =>
    let artifact : Artifact :=
      { parts := [.text s], index := some 0, lastChunk := some true }
    let sse := sse.writeArtifact id artifact reqId
    match tm.addArtifact id artifact with
    | .error e => streamCatch tm id (.a2a e) sse reqId now
    | .ok (_, tm') => streamComplete tm' id taskW sse reqId now
  | .ok (.streamed chunks) =>
    let (sse, collectedText) := consumeChunks sse id reqId chunks 0 []
    let finalArtifact : Artifact :=
      { parts := [.text ""], index := some 0,
        append := some true, lastChunk := some true }
    let sse := sse.writeArtifact id finalArtifact reqId
    match tm.addArtifact id
        { parts := [.text (String.join collectedText)], index := some 0,
          lastChunk := some true } with
    | .error e => streamCatch tm id (.a2a e) sse reqId now
    | .ok (_, tm') => streamComplete tm' id taskW sse reqId now

/-- The `handleStreamingRequest` from `streaming-handler.ts`.  The result is
the task store after the call, the SSE writer after the call, and the
error the call propagated to its caller (`none` = returned normally).
Validation failures write an error event and end the stream without
touching the store.  Store errors raised between task acquisition and the
`try` block (e.g. an invalid transition to `working`) propagate before
the `finally { sse.end() }` exists, leaving the sink untouched. -/
def handleStreamingRequest (params : SendParams) (tm₀ : TaskManager)
    (invoker : SkillInvoker) (sse₀ : SSEWriter) (requestId : JsonValueId)
    (now : Nat) : TaskManager × SSEWriter × Option JsError :=
  if params.id = "" then
    (tm₀, (sse₀.writeError (-32602) "Missing required parameter: id"
      (some (.fieldName "id")) requestId).endStream, none)
  else match params.message with
  | none =>
    (tm₀, (sse₀.writeError (-32602) "Missing required parameter: message"
      (some (.fieldName "message")) requestId).endStream, none)
  | some message =>
  match params.metadata >>= SendMetadata.skillId with
  | none =>
    (tm₀, (sse₀.writeError (-32602) "Missing required metadata.skillId"
      (some (.fieldName "metadata.skillId")) requestId).endStream, none)
  | some skillId =>
  if skillId = "" then
    (tm₀, (sse₀.writeError (-32602) "Missing required metadata.skillId"
      (some (.fieldName "metadata.skillId")) requestId).endStream, none)
  else if invoker.hasSkill skillId = false then
    (tm₀, (sse₀.writeError (-32602) ("Unknown skill: " ++ skillId)
      (some (.skillRef skillId)) requestId).endStream, none)
  else
    -- create or get task
    let tm₁ :=
      match tm₀.get params.id with
      | some _ => tm₀
      | none =>
        (tm₀.create
          { id := params.id, contextId := params.contextId,
            metadata := params.metadata } now).2
    -- store user message (before the try block: an error here propagates)
    match tm₁.appendHistory params.id message with
    | .error e => (tm₁, sse₀, some (.a2a e))
    | .ok (_, tm₂) =>
    -- transition to working (before the try block: an error here propagates)
    match tm₂.setWorking params.id now with
    | .error e => (tm₂, sse₀, some (.a2a e))
    | .ok (taskW, tm₃) =>
    -- initial status event: the task object is the stored one, already in
    -- `working` state at this point
    let sse₁ := sse₀.writeTaskStatus params.id taskW.status none requestId
    -- try/catch with finally { sse.end() }
    let r :=
      streamTryCatch tm₃ params.id invoker skillId message taskW sse₁
        requestId now
    (r.1, r.2.1.endStream, r.2.2)

/-! ## JSON-RPC router (`server/router.ts`, `types/jsonrpc.ts`) -/

/-- The `JsonRpcRequest` from `types/jsonrpc.ts`, generic over the params
payload.  `id` is typed `string | number` but can be absent at runtime,
which the router handles with `?? null`. -/
structure JsonRpcRequest (α : Type) where
  jsonrpc : String
  id : JsonValueId
  method : String
  params : Option α

/-- The `JsonRpcError` from `types/jsonrpc.ts`. -/
structure JsonRpcErrorObj where
  code : Int
  message : String
  data : Option ErrData := none
deriving DecidableEq, Repr

/-- The `JsonRpcResponse` from `types/jsonrpc.ts`, generic over the result
payload. -/
structure JsonRpcResponse (β : Type) where
  jsonrpc : String
  id : JsonValueId
  result : Option β := none
  error : Option JsonRpcErrorObj := none

/-- The `createSuccessResponse` from `types/jsonrpc.ts`: the id is passed
through unchanged. -/
def createSuccessResponse {β : Type} (id : JsonValueId) (result : β) :
    JsonRpcResponse β :=
  { jsonrpc := "2.0", id := id, result := some result }

/-- The `createErrorResponse` from `types/jsonrpc.ts`: the id is passed
through unchanged. -/
def createErrorResponse {β : Type} (id : JsonValueId) (code : Int)
    (message : String) (data : Option ErrData) : JsonRpcResponse β :=
  { jsonrpc := "2.0", id := id,
    error := some { code := code, message := message, data := data } }

/-- The `JsonRpcRouter`: the registered method handlers.  A handler receives
the request's `params` and either returns a result or throws. -/
structure JsonRpcRouter (α β : Type) where
  handlers : String → Option (Option α → Except JsError β)

/-- The `JsonRpcRouter.handle`.  `method` is a `String` in this embedding, so
the source's `typeof request.method !== 'string'` rejection branch is
unreachable and omitted.  Note which branches apply `?? null` to the
request id: only the invalid-version rejection does; the method-not-found,
success and handler-error envelopes pass `request.id` through unchanged. -/
def JsonRpcRouter.handle {α β : Type} (router : JsonRpcRouter α β)
    (request : JsonRpcRequest α) : JsonRpcResponse β :=
  if request.jsonrpc ≠ "2.0" then
    createErrorResponse request.id.orNull (-32600) "Invalid JSON-RPC version" none
  else
    match router.handlers request.method with
    | none =>
      createErrorResponse request.id (-32601)
        ("Method not found: " ++ request.method) none
    | some handler =>
      match handler request.params with
      | .ok result => createSuccessResponse request.id result
      | .error err =>
        let a2aError := toA2AError err
        createErrorResponse request.id a2aError.code a2aError.message a2aError.data

/-! ## Expected streaming output (for the statement of claim C4)

`expectedChunkEvents taskId evId i chunks` is the list of artifact events
the streaming loop emits for `chunks`, starting at chunk index `i`: one
event per chunk, `index: 0`, `lastChunk: false`, and `append` false for
chunk index 0 and true afterwards. -/

def expectedChunkEvents (taskId : String) (evId : JsonValueId) :
    Nat → List String → List StreamEvent
  | _, [] => []
  | i, c :: rest =>
    .resultEvt evId (.artifactEvt taskId
        { parts := [.text c], index := some 0,
          append := some (decide (0 < i)), lastChunk := some false })
      :: expectedChunkEvents taskId evId (i + 1) rest

/-! ## Concrete fixtures used by the witness and counterexample theorems -/

/-- An empty task store. -/
def emptyTM : TaskManager := ⟨fun _ => none⟩

/-- A store holding a single task. -/
def singletonTM (id : String) (t : Task) : TaskManager :=
  ⟨fun k => if k = id then some t else none⟩

/-- An invoker whose every skill returns the single string
`"Hello, World!"` (the `greet` skill of the test agents). -/
def greetInvoker : SkillInvoker :=
  ⟨fun _ => true, fun _ _ _ => .ok (.single "Hello, World!")⟩

/-- An invoker whose every skill streams the chunks `["A", "B"]`. -/
def streamInvoker : SkillInvoker :=
  ⟨fun _ => true, fun _ _ _ => .ok (.streamed ["A", "B"])⟩

/-- An invoker whose every skill throws `Error("boom")`. -/
def boomInvoker : SkillInvoker :=
  ⟨fun _ => true, fun _ _ _ => .error (.plain "boom")⟩

/-- The inbound user message `{role: user, parts: [{type:text, text:"World"}]}`. -/
def userMsgW : Message := { role := .user, parts := [.text "World"] }

/-- A well-formed send request for task `"t1"` and skill `"greet"`. -/
def sendParamsW : SendParams :=
  { id := "t1", message := some userMsgW, metadata := some { skillId := some "greet" } }

/-- A task sitting in `working` state. -/
def taskWorking : Task :=
  { id := "t1", status := { state := .working, timestamp := some 1 } }

/-- A store holding `taskWorking` under id `"t1"`. -/
def tmWorking : TaskManager := singletonTM "t1" taskWorking

/-- Three history entries. -/
def msg1 : Message := { role := .user, parts := [.text "1"] }

/-- Second history entry. -/
def msg2 : Message := { role := .agent, parts := [.text "2"] }

/-- Third history entry. -/
def msg3 : Message := { role := .user, parts := [.text "3"] }

/-- A task with three history entries. -/
def taskHist : Task :=
  { id := "t1", status := { state := .submitted, timestamp := some 0 },
    history := [msg1, msg2, msg3] }

/-- A store holding `taskHist` under id `"t1"`. -/
def tmHist : TaskManager := singletonTM "t1" taskHist

/-- A task already in the terminal `completed` state. -/
def taskDone : Task :=
  { id := "t1", status := { state := .completed, timestamp := some 1 } }

/-- A store holding `taskDone` under id `"t1"`. -/
def tmDone : TaskManager := singletonTM "t1" taskDone

/-- A task whose only artifact has an empty parts list. -/
def taskEmptyArt : Task :=
  { id := "t1", status := { state := .submitted, timestamp := some 0 },
    artifacts := [{ parts := [] }] }

/-- A store holding `taskEmptyArt` under id `"t1"`. -/
def tmEmptyArt : TaskManager := singletonTM "t1" taskEmptyArt

/-- A task with one artifact holding a single text part. -/
def taskTextArt : Task :=
  { id := "t1", status := { state := .submitted, timestamp := some 0 },
    artifacts := [{ parts := [.text "Hello"] }] }

/-- A store holding `taskTextArt` under id `"t1"`. -/
def tmTextArt : TaskManager := singletonTM "t1" taskTextArt

/-- A router with a succeeding `test` method and a throwing `boom`
method. -/
def okRouter : JsonRpcRouter Unit String :=
  ⟨fun m => if m = "test" then some (fun _ => .ok "r")
            else if m = "boom" then some (fun _ => .error (.plain "boom"))
            else none⟩

/-! # Theorems -/

/-! ## Shared helper lemmas -/

/-- Reading back the key just written into the store. -/
theorem TaskManager.get_setTask_self (m : TaskManager) (id : String) (t : Task) :
    (m.setTask id t).get id = some t := by
  simp [TaskManager.get, TaskManager.setTask]

/-- The `getOrThrow` on a present key. -/
theorem TaskManager.getOrThrow_of_get (m : TaskManager) (id : String) (t : Task)
    (h : m.get id = some t) : m.getOrThrow id = .ok t := by
  unfold TaskManager.getOrThrow
  unfold TaskManager.get at h
  rw [h]

/-- No terminal state can transition to `canceled`. -/
theorem canTransition_terminal_canceled (s : TaskState)
    (h : isTerminal s = true) : canTransition s .canceled = false := by
  cases s <;> revert h <;> decide

/-- State `working` is reachable exactly from `submitted`, `input-required` and
`unknown`; the remaining four states deny it. -/
theorem canTransition_to_working_iff (s : TaskState) :
    canTransition s .working = false ↔
      s ∈ ([.working, .completed, .canceled, .failed] : List TaskState) := by
  cases s <;> decide

/-- Writing an event never changes the flags or the call count. -/
theorem SSEWriter.writeEvent_flags (w : SSEWriter) (e : StreamEvent) :
    (w.writeEvent e).flags = w.flags := by
  unfold SSEWriter.writeEvent
  split <;> rfl

/-- Two writers with equal flags agree on `closed`. -/
theorem SSEWriter.closed_of_flags {v w : SSEWriter}
    (h : v.flags = w.flags) : v.closed = w.closed :=
  congrArg Prod.fst h

/-- Two writers with equal flags agree on `writableEnded`. -/
theorem SSEWriter.writableEnded_of_flags {v w : SSEWriter}
    (h : v.flags = w.flags) : v.writableEnded = w.writableEnded :=
  congrArg (fun p => p.2.1) h

/-- Two writers with equal flags agree on the call count. -/
theorem SSEWriter.resEndCalls_of_flags {v w : SSEWriter}
    (h : v.flags = w.flags) : v.resEndCalls = w.resEndCalls :=
  congrArg (fun p => p.2.2) h

/-- Two writers with equal flags agree on `isOpen`. -/
theorem SSEWriter.isOpen_of_flags {v w : SSEWriter}
    (h : v.flags = w.flags) : v.isOpen = w.isOpen := by
  unfold SSEWriter.isOpen
  rw [SSEWriter.closed_of_flags h, SSEWriter.writableEnded_of_flags h]

/-- Writing an event to an open writer appends it to the wire. -/
theorem SSEWriter.writeEvent_open (w : SSEWriter) (e : StreamEvent)
    (h : w.isOpen = true) :
    w.writeEvent e = { w with events := w.events ++ [e] } := by
  unfold SSEWriter.writeEvent
  rw [h]
  rfl

/-- Calling `end` always marks the writer closed. -/
theorem SSEWriter.endStream_closed (w : SSEWriter) :
    w.endStream.closed = true := by
  unfold SSEWriter.endStream
  split <;> rfl

/-- A call to `end` invokes `res.end()` exactly once when the writer is open, and not
at all otherwise. -/
theorem SSEWriter.endStream_resEndCalls (w : SSEWriter) :
    w.endStream.resEndCalls =
      w.resEndCalls + (if w.isOpen then 1 else 0) := by
  unfold SSEWriter.endStream
  split <;> simp_all

/-- The chunk loop on a writer with both flags clear: every chunk is
consumed, each is emitted as an indexed artifact event, and the flags and
call count are untouched. -/
theorem consumeChunks_open (taskId : String) (reqId : JsonValueId) :
    ∀ (chunks : List String) (sse : SSEWriter) (i : Nat) (coll : List String),
      sse.closed = false → sse.writableEnded = false →
      consumeChunks sse taskId reqId chunks i coll =
        ({ sse with events :=
            sse.events ++ expectedChunkEvents taskId reqId.orNull i chunks },
         coll ++ chunks) := by
  intro chunks
  induction chunks with
  | nil =>
    intro sse i coll h1 h2
    simp [consumeChunks, expectedChunkEvents]
  | cons c rest ih =>
    intro sse i coll h1 h2
    have hopen : sse.isOpen = true := by
      simp [SSEWriter.isOpen, h1, h2]
    unfold consumeChunks
    rw [hopen]
    simp only [Bool.true_eq_false, if_false]
    rw [SSEWriter.writeArtifact, SSEWriter.write,
        SSEWriter.writeEvent_open _ _ hopen]
    rw [ih { sse with events := sse.events ++
          [.resultEvt reqId.orNull (.artifactEvt taskId
            { parts := [.text c], index := some 0,
              append := some (decide (0 < i)), lastChunk := some false })] }
        (i + 1) (coll ++ [c]) h1 h2]
    simp [expectedChunkEvents, List.append_assoc]

/-- The chunk loop never changes the flags or the call count. -/
theorem consumeChunks_flags (taskId : String) (reqId : JsonValueId) :
    ∀ (chunks : List String) (sse : SSEWriter) (i : Nat) (coll : List String),
      (consumeChunks sse taskId reqId chunks i coll).1.flags = sse.flags := by
  intro chunks
  induction chunks with
  | nil => intro sse i coll; rfl
  | cons c rest ih =>
    intro sse i coll
    unfold consumeChunks
    by_cases h : sse.isOpen = false
    · rw [if_pos h]
    · rw [if_neg h]
      exact (ih _ (i + 1) (coll ++ [c])).trans (SSEWriter.writeEvent_flags _ _)

/-- The catch block of the streaming handler only writes events: flags
and call count untouched. -/
theorem streamCatch_flags (tm : TaskManager) (id : String) (err : JsError)
    (sse : SSEWriter) (reqId : JsonValueId) (now : Nat) :
    (streamCatch tm id err sse reqId now).2.1.flags = sse.flags := by
  simp only [streamCatch]
  split
  · rfl
  · split
    · rfl
    · exact SSEWriter.writeEvent_flags _ _

/-- The completion tail of the streaming handler only writes events. -/
theorem streamComplete_flags (tm : TaskManager) (id : String) (taskW : Task)
    (sse : SSEWriter) (reqId : JsonValueId) (now : Nat) :
    (streamComplete tm id taskW sse reqId now).2.1.flags = sse.flags := by
  simp only [streamComplete]
  split
  · exact streamCatch_flags _ _ _ _ _ _
  · split
    · exact streamCatch_flags _ _ _ _ _ _
    · split
      · exact streamCatch_flags _ _ _ _ _ _
      · exact SSEWriter.writeEvent_flags _ _

/-- The whole try/catch body of the streaming handler only writes events:
flags and call count untouched. -/
theorem streamTryCatch_flags (tm : TaskManager) (id : String)
    (invoker : SkillInvoker) (skillId : String) (message : Message)
    (taskW : Task) (sse : SSEWriter) (reqId : JsonValueId) (now : Nat) :
    (streamTryCatch tm id invoker skillId message taskW sse reqId now).2.1.flags
        = sse.flags := by
  simp only [streamTryCatch]
  split
  · exact streamCatch_flags _ _ _ _ _ _
  · split
    · exact (streamCatch_flags _ _ _ _ _ _).trans (SSEWriter.writeEvent_flags _ _)
    · exact (streamComplete_flags _ _ _ _ _ _).trans (SSEWriter.writeEvent_flags _ _)
  · rename_i chunks hinv
    rcases hcc : consumeChunks sse id reqId chunks 0 [] with ⟨sse₂, coll₂⟩
    have hflags : sse₂.flags = sse.flags := by
      have := consumeChunks_flags id reqId chunks sse 0 []
      rw [hcc] at this
      exact this
    dsimp only
    split
    · exact (streamCatch_flags _ _ _ _ _ _).trans
        ((SSEWriter.writeEvent_flags _ _).trans hflags)
    · exact (streamComplete_flags _ _ _ _ _ _).trans
        ((SSEWriter.writeEvent_flags _ _).trans hflags)

/-- The `writeError` only writes an event. -/
theorem SSEWriter.writeError_flags (w : SSEWriter) (code : Int)
    (msg : String) (data : Option ErrData) (reqId : JsonValueId) :
    (w.writeError code msg data reqId).flags = w.flags :=
  SSEWriter.writeEvent_flags _ _

/-- The `writeTaskStatus` only writes an event. -/
theorem SSEWriter.writeTaskStatus_flags (w : SSEWriter) (taskId : String)
    (status : TaskStatus) (finalFlag : Option Bool) (reqId : JsonValueId) :
    (w.writeTaskStatus taskId status finalFlag reqId).flags = w.flags :=
  SSEWriter.writeEvent_flags _ _

/-! ## Claim C1: the task state machine -/

/-- C1: for every ordered pair of the seven task states,
`canTransition(from, to)` holds exactly when the pair appears in the
transition table of spec section 4.1; `isTerminal` holds exactly for
`completed`, `canceled` and `failed`; `getValidTransitions` returns the
allowed targets in the table's listed order; and the table's `unknown`
row is every state except `unknown`. -/
theorem c1_state_machine_table :
    (∀ src tgt : TaskState,
        canTransition src tgt = true ↔ tgt ∈ specTransitionTable src)
  ∧ (∀ s : TaskState,
        isTerminal s = true ↔ (s = .completed ∨ s = .canceled ∨ s = .failed))
  ∧ (∀ src : TaskState, getValidTransitions src = specTransitionTable src)
  ∧ (∀ tgt : TaskState, tgt ∈ specTransitionTable .unknown ↔ tgt ≠ .unknown) := by
  refine ⟨?_, ?_, ?_, ?_⟩ <;> decide

/-! ## Claim C5: sink closure on the streaming path -/

/-- C5 (amended): whenever `handleStreamingRequest` returns normally —
which covers every validation failure, successful skill completion, skill
error, and a request on an already-disconnected client — the sink ends
closed, and `res.end()` is called exactly once when the sink was open at
entry and not at all when the client had already disconnected.  (A store
error raised before the `try` block — e.g. the transition to `working`
being invalid for an existing task — propagates without the terminating
step ever running; see the counterexample theorem.) -/
theorem c5_sink_closed_on_normal_return
    (params : SendParams) (tm : TaskManager) (invoker : SkillInvoker)
    (sse : SSEWriter) (reqId : JsonValueId) (now : Nat)
    (hret : (handleStreamingRequest params tm invoker sse reqId now).2.2 = none) :
    (handleStreamingRequest params tm invoker sse reqId now).2.1.closed = true ∧
    (handleStreamingRequest params tm invoker sse reqId now).2.1.resEndCalls =
      sse.resEndCalls + (if sse.isOpen then 1 else 0) := by
  revert hret
  unfold handleStreamingRequest
  generalize hk : (if sse.isOpen = true then 1 else 0) = k
  have herr : ∀ code msg data,
      ((sse.writeError code msg data reqId).endStream).closed = true ∧
      ((sse.writeError code msg data reqId).endStream).resEndCalls =
        sse.resEndCalls + k := by
    intro code msg data
    refine ⟨SSEWriter.endStream_closed _, ?_⟩
    rw [SSEWriter.endStream_resEndCalls,
        SSEWriter.resEndCalls_of_flags (SSEWriter.writeError_flags _ _ _ _ _),
        SSEWriter.isOpen_of_flags (SSEWriter.writeError_flags _ _ _ _ _), hk]
  split
  · exact fun _ => herr _ _ _
  · split
    · exact fun _ => herr _ _ _
    · split
      · exact fun _ => herr _ _ _
      · split
        · exact fun _ => herr _ _ _
        · split
          · exact fun _ => herr _ _ _
          · -- main path: create/get, appendHistory, setWorking, try/finally
            split <;>
            · dsimp only
              split
              · exact fun h => Option.noConfusion h
              · split
                · exact fun h => Option.noConfusion h
                · intro _
                  refine ⟨SSEWriter.endStream_closed _, ?_⟩
                  rw [SSEWriter.endStream_resEndCalls,
                      SSEWriter.resEndCalls_of_flags
                        ((streamTryCatch_flags _ _ _ _ _ _ _ _ _).trans
                          (SSEWriter.writeTaskStatus_flags _ _ _ _ _)),
                      SSEWriter.isOpen_of_flags
                        ((streamTryCatch_flags _ _ _ _ _ _ _ _ _).trans
                          (SSEWriter.writeTaskStatus_flags _ _ _ _ _)),
                      hk]

/-- C5 witness: a well-formed streaming request against a fresh store and
an open sink returns normally with the sink closed exactly once. -/
theorem c5_witness :
    (handleStreamingRequest sendParamsW emptyTM streamInvoker {} (.str "req-1") 3).2.2 = none ∧
    ((handleStreamingRequest sendParamsW emptyTM streamInvoker {} (.str "req-1") 3).2.1.closed = true ∧
     (handleStreamingRequest sendParamsW emptyTM streamInvoker {} (.str "req-1") 3).2.1.resEndCalls =
       ({} : SSEWriter).resEndCalls + (if ({} : SSEWriter).isOpen then 1 else 0)) :=
  ⟨rfl, c5_sink_closed_on_normal_return sendParamsW emptyTM streamInvoker {} (.str "req-1") 3 rfl⟩

/-- C5 counterexample: a sendSubscribe request that passes validation but
targets an existing task already in `working` state makes the
transition-to-working throw before the `try`/`finally` is entered: the
handler propagates the error with the sink never closed — so the
terminating close step does not run on every execution path. -/
theorem c5_counterexample :
    (handleStreamingRequest sendParamsW tmWorking streamInvoker {} (.str "req-1") 3).2.2 =
      some (.a2a (.invalidStateTransition "t1" .working .working)) ∧
    (handleStreamingRequest sendParamsW tmWorking streamInvoker {} (.str "req-1") 3).2.1.closed = false ∧
    (handleStreamingRequest sendParamsW tmWorking streamInvoker {} (.str "req-1") 3).2.1.resEndCalls = 0 :=
  ⟨rfl, rfl, rfl⟩

/-! ## Claim C6: the get handler -/

/-- C6 (amended): `get` fails with `InvalidParams` when `id` is missing
and with `TaskNotFound` when no task with that id exists; for every
provided `historyLength ≥ 1` it returns a copy of the task whose history
is exactly the last `historyLength` entries of the stored history in
their original relative order (the stored task is untouched — the handler
never writes to the store); `historyLength = 0`, however, returns the
full history, because `Array.slice(-0)` is `slice(0)`. -/
theorem c6_get_handler :
    (∀ (tm : TaskManager) (hl : Option Nat),
        getTaskHandler tm { id := "", historyLength := hl } =
          .error (.invalidParams "Missing required parameter: id" (some "id")))
  ∧ (∀ (tm : TaskManager) (params : GetParams),
        params.id ≠ "" → tm.get params.id = none →
        getTaskHandler tm params = .error (.taskNotFound params.id))
  ∧ (∀ (tm : TaskManager) (params : GetParams) (task : Task) (n : Nat),
        params.id ≠ "" → tm.get params.id = some task →
        params.historyLength = some n → 1 ≤ n →
        getTaskHandler tm params =
          .ok { task with history := task.history.drop (task.history.length - n) })
  ∧ (∀ (tm : TaskManager) (params : GetParams) (task : Task),
        params.id ≠ "" → tm.get params.id = some task →
        params.historyLength = some 0 →
        (getTaskHandler tm params).map Task.history = .ok task.history) := by
  refine ⟨?_, ?_, ?_, ?_⟩
  · intro tm hl
    rfl
  · intro tm params hid hget
    have hget' : tm.tasks params.id = none := hget
    unfold getTaskHandler TaskManager.getOrThrow
    rw [if_neg hid, hget']
  · intro tm params task n hid hget hlen hn
    have hne : n ≠ 0 := Nat.one_le_iff_ne_zero.mp hn
    unfold getTaskHandler
    rw [if_neg hid, TaskManager.getOrThrow_of_get _ _ _ hget, hlen]
    simp [sliceLast, hne]
  · intro tm params task hid hget hlen
    unfold getTaskHandler
    rw [if_neg hid, TaskManager.getOrThrow_of_get _ _ _ hget, hlen]
    rfl

/-- C6 witness: on a task with history `[msg1, msg2, msg3]`,
`historyLength: 2` returns exactly `[msg2, msg3]`. -/
theorem c6_witness :
    (("t1" : String) ≠ "" ∧ tmHist.get "t1" = some taskHist ∧ 1 ≤ 2) ∧
    getTaskHandler tmHist { id := "t1", historyLength := some 2 } =
      .ok { taskHist with
            history := taskHist.history.drop (taskHist.history.length - 2) } :=
  ⟨⟨by decide, rfl, by decide⟩,
    c6_get_handler.2.2.1 tmHist { id := "t1", historyLength := some 2 } taskHist 2
      (by decide) rfl rfl (by decide)⟩

/-- C6 counterexample: `historyLength: 0` on a task with three history
entries returns all three — not the last zero — because
`history.slice(-0)` is `history.slice(0)`. -/
theorem c6_counterexample :
    (getTaskHandler tmHist { id := "t1", historyLength := some 0 }).map
        Task.history = .ok [msg1, msg2, msg3] ∧
    ([msg1, msg2, msg3] : List Message) ≠ [] :=
  ⟨rfl, by decide⟩

/-! ## Claim C7: the cancel handler -/

/-- C7 (amended): `cancel` fails with `InvalidParams` when `id` is
missing; on a task whose current state is terminal it fails with
`InvalidStateTransitionError` — whose surfaced message reads
`Invalid state transition for task "<id>": <state> -> canceled`, not the
"cannot be canceled in state" wording of the (unused on this path)
`TaskNotCancelableError`; and on a freshly created task in `submitted`
state it succeeds, leaving the stored task in `canceled` state. -/
theorem c7_cancel_handler :
    (∀ (tm : TaskManager) (now : Nat),
        (cancelTaskHandler tm { id := "" } now).2 =
          .error (.invalidParams "Missing required parameter: id" (some "id")))
  ∧ (∀ (tm : TaskManager) (params : CancelParams) (task : Task) (now : Nat),
        params.id ≠ "" → tm.get params.id = some task →
        isTerminal task.status.state = true →
        (cancelTaskHandler tm params now).2 =
          .error (.invalidStateTransition params.id task.status.state .canceled))
  ∧ (∀ (tm : TaskManager) (params : CancelParams) (task : Task) (now : Nat),
        params.id ≠ "" → tm.get params.id = some task →
        task.status.state = .submitted →
        ((cancelTaskHandler tm params now).2).map (fun t => t.status.state) =
            .ok .canceled ∧
          ((cancelTaskHandler tm params now).1.get params.id).map
              (fun t => t.status.state) = some .canceled) := by
  refine ⟨?_, ?_, ?_⟩
  · intro tm now
    rfl
  · intro tm params task now hid hget hterm
    have hct := canTransition_terminal_canceled _ hterm
    unfold cancelTaskHandler TaskManager.setCanceled TaskManager.updateStatus
    rw [if_neg hid, TaskManager.getOrThrow_of_get _ _ _ hget]
    dsimp only
    rw [hct]
    rfl
  · intro tm params task now hid hget hsub
    have hct : canTransition task.status.state .canceled = true := by
      rw [hsub]; rfl
    unfold cancelTaskHandler TaskManager.setCanceled TaskManager.updateStatus
    rw [if_neg hid, TaskManager.getOrThrow_of_get _ _ _ hget]
    dsimp only
    rw [hct]
    exact ⟨rfl, by simp [TaskManager.get_setTask_self]⟩

/-- C7 witness: cancelling the `completed` task `taskDone` fails with the
invalid-transition error, and cancelling the `submitted` task `taskHist`
succeeds. -/
theorem c7_witness :
    ((("t1" : String) ≠ "" ∧ tmDone.get "t1" = some taskDone ∧
        isTerminal taskDone.status.state = true) ∧
      (cancelTaskHandler tmDone { id := "t1" } 5).2 =
        .error (.invalidStateTransition "t1" taskDone.status.state .canceled)) ∧
    ((cancelTaskHandler tmHist { id := "t1" } 5).2).map
        (fun t => t.status.state) = .ok .canceled :=
  ⟨⟨⟨by decide, rfl, rfl⟩,
      c7_cancel_handler.2.1 tmDone { id := "t1" } taskDone 5 (by decide) rfl rfl⟩,
    (c7_cancel_handler.2.2 tmHist { id := "t1" } taskHist 5 (by decide) rfl rfl).1⟩

/-- C7 counterexample: the error surfaced when cancelling a `completed`
task carries the message `Invalid state transition for task "t1":
completed -> canceled`; it is not the `task ... cannot be canceled in
state` message the claim names (that wording belongs to the
`TaskNotCancelableError` class, which this path never constructs). -/
theorem c7_counterexample :
    (cancelTaskHandler tmDone { id := "t1" } 5).2 =
      .error (.invalidStateTransition "t1" .completed .canceled) ∧
    (A2AErr.invalidStateTransition "t1" .completed .canceled).message =
      "Invalid state transition for task \"t1\": completed -> canceled" ∧
    (A2AErr.invalidStateTransition "t1" .completed .canceled).message ≠
      (A2AErr.taskNotCancelable "t1" .completed).message :=
  ⟨rfl, rfl, by decide⟩

/-! ## Claim C2: the send handler, single-string success path -/

/-- C2: a send request with a non-empty task id not yet in the store, a
message, and a registered skill whose invocation returns the single
string `s` yields a `completed` task whose status message is an agent
message with exactly one text part carrying `s`, and whose history is
exactly the inbound message followed by that agent message; the stored
task agrees. -/
theorem c2_send_single_string
    (tm : TaskManager) (invoker : SkillInvoker) (params : SendParams)
    (msg : Message) (skillId s : String) (now : Nat)
    (hid : params.id ≠ "") (hmsg : params.message = some msg)
    (hsk : params.metadata >>= SendMetadata.skillId = some skillId)
    (hskne : skillId ≠ "") (hhas : invoker.hasSkill skillId = true)
    (hfresh : tm.get params.id = none)
    (hinv : ∀ m t, invoker.invoke skillId m t = .ok (.single s)) :
    ((sendTaskHandler tm invoker params now).2).map
        (fun t => (t.status.state, t.status.message, t.history)) =
      .ok (.completed, some { role := .agent, parts := [.text s] },
           [msg, { role := .agent, parts := [.text s] }]) ∧
    ((sendTaskHandler tm invoker params now).1.get params.id).map
        (fun t => (t.status.state, t.history)) =
      some (.completed, [msg, { role := .agent, parts := [.text s] }]) := by
  have hfresh' : tm.tasks params.id = none := hfresh
  have hnf : ¬(true = false) := by decide
  unfold sendTaskHandler
  rw [hmsg, hsk, if_neg hid]
  dsimp only
  rw [if_neg hskne, hhas, if_neg hnf, hfresh]
  dsimp only
  unfold TaskManager.create
  rw [hfresh']
  dsimp only
  simp [TaskManager.appendHistory, TaskManager.getOrThrow, TaskManager.setTask,
    TaskManager.setWorking, TaskManager.setCompleted, TaskManager.updateStatus,
    TaskManager.get, hinv, canTransition, VALID_TRANSITIONS]
  rfl

/-- C2 witness: the `greet` scenario — skill returns `"Hello, World!"`
against a fresh store. -/
theorem c2_witness :
    (sendParamsW.id ≠ "" ∧ emptyTM.get sendParamsW.id = none ∧
      greetInvoker.hasSkill "greet" = true) ∧
    (((sendTaskHandler emptyTM greetInvoker sendParamsW 3).2).map
        (fun t => (t.status.state, t.status.message, t.history)) =
      .ok (.completed, some { role := .agent, parts := [.text "Hello, World!"] },
           [userMsgW, { role := .agent, parts := [.text "Hello, World!"] }]) ∧
     ((sendTaskHandler emptyTM greetInvoker sendParamsW 3).1.get sendParamsW.id).map
        (fun t => (t.status.state, t.history)) =
      some (.completed, [userMsgW, { role := .agent, parts := [.text "Hello, World!"] }])) :=
  ⟨⟨by decide, rfl, rfl⟩,
    c2_send_single_string emptyTM greetInvoker sendParamsW userMsgW "greet"
      "Hello, World!" 3 (by decide) rfl rfl (by decide) rfl rfl (fun _ _ => rfl)⟩

/-! ## Claim C3: the send handler, skill-error path -/

/-- C3: a send request that passes validation and whose skill invocation
throws `e` leaves the task `failed` — a terminal state — with a status
message of one agent text part reading `"Error: " ++ e.message`, and
rethrows the original error `e` to the dispatcher. -/
theorem c3_send_skill_error
    (tm : TaskManager) (invoker : SkillInvoker) (params : SendParams)
    (msg : Message) (skillId : String) (e : JsError) (now : Nat)
    (hid : params.id ≠ "") (hmsg : params.message = some msg)
    (hsk : params.metadata >>= SendMetadata.skillId = some skillId)
    (hskne : skillId ≠ "") (hhas : invoker.hasSkill skillId = true)
    (htrans : ∀ t, tm.get params.id = some t →
        canTransition t.status.state .working = true)
    (hinv : ∀ m t, invoker.invoke skillId m t = .error e) :
    (sendTaskHandler tm invoker params now).2 = .error e ∧
    ((sendTaskHandler tm invoker params now).1.get params.id).map
        (fun t => (t.status.state, t.status.message, isTerminal t.status.state)) =
      some (.failed,
        some { role := .agent, parts := [.text ("Error: " ++ e.message)] }, true) := by
  have hnf : ¬(true = false) := by decide
  have hwf : canTransition .working .failed = true := rfl
  unfold sendTaskHandler
  rw [hmsg, hsk, if_neg hid]
  dsimp only
  rw [if_neg hskne, hhas, if_neg hnf]
  rcases hget : tm.get params.id with _ | t
  · have hget' : tm.tasks params.id = none := hget
    dsimp only
    unfold TaskManager.create
    rw [hget']
    dsimp only
    simp [TaskManager.appendHistory, TaskManager.getOrThrow, TaskManager.setTask,
      TaskManager.setWorking, TaskManager.setFailed, TaskManager.updateStatus,
      TaskManager.get, hinv, sendCatch, canTransition, VALID_TRANSITIONS,
      isTerminal, TERMINAL_STATES]
  · have hget' : tm.tasks params.id = some t := hget
    have hw := htrans t hget
    dsimp only
    simp [TaskManager.appendHistory, TaskManager.getOrThrow, TaskManager.setTask,
      TaskManager.setWorking, TaskManager.setFailed, TaskManager.updateStatus,
      TaskManager.get, hget', hw, hwf, hinv, sendCatch,
      isTerminal, TERMINAL_STATES]

/-- C3 witness: a skill throwing `Error("boom")` yields a `failed` task
with status text `"Error: boom"`, and the handler rethrows the error. -/
theorem c3_witness :
    (sendParamsW.id ≠ "" ∧ boomInvoker.hasSkill "greet" = true) ∧
    ((sendTaskHandler emptyTM boomInvoker sendParamsW 3).2 = .error (.plain "boom") ∧
     ((sendTaskHandler emptyTM boomInvoker sendParamsW 3).1.get sendParamsW.id).map
        (fun t => (t.status.state, t.status.message, isTerminal t.status.state)) =
      some (.failed,
        some { role := .agent,
               parts := [.text ("Error: " ++ (JsError.plain "boom").message)] }, true)) :=
  ⟨⟨by decide, rfl⟩,
    c3_send_skill_error emptyTM boomInvoker sendParamsW userMsgW "greet"
      (.plain "boom") 3 (by decide) rfl rfl (by decide) rfl
      (fun t h => Option.noConfusion h) (fun _ _ => rfl)⟩

/-! ## Claim C10: the store is mutated on the invalid-transition path -/

/-- C10: a send or sendSubscribe request that passes validation but
targets an existing task in one of the four states from which `working`
is unreachable (`working`, `completed`, `canceled`, `failed` — exactly the
states denying the transition) appends the inbound message to the stored
history before `InvalidTransition` is raised: the call fails, yet the
stored history has grown by one entry. -/
theorem c10_history_appended_on_invalid_transition
    (tm : TaskManager) (invoker : SkillInvoker) (params : SendParams)
    (msg : Message) (skillId : String) (task : Task)
    (sse : SSEWriter) (reqId : JsonValueId) (now : Nat)
    (hid : params.id ≠ "") (hmsg : params.message = some msg)
    (hsk : params.metadata >>= SendMetadata.skillId = some skillId)
    (hskne : skillId ≠ "") (hhas : invoker.hasSkill skillId = true)
    (hget : tm.get params.id = some task)
    (hstate : task.status.state ∈
        ([.working, .completed, .canceled, .failed] : List TaskState)) :
    ((sendTaskHandler tm invoker params now).2 =
        .error (.a2a (.invalidStateTransition params.id task.status.state .working)) ∧
      ((sendTaskHandler tm invoker params now).1.get params.id).map Task.history =
        some (task.history ++ [msg])) ∧
    ((handleStreamingRequest params tm invoker sse reqId now).2.2 =
        some (.a2a (.invalidStateTransition params.id task.status.state .working)) ∧
      ((handleStreamingRequest params tm invoker sse reqId now).1.get params.id).map
          Task.history = some (task.history ++ [msg])) ∧
    (∀ s : TaskState, canTransition s .working = false ↔
        s ∈ ([.working, .completed, .canceled, .failed] : List TaskState)) := by
  have hnf : ¬(true = false) := by decide
  have hget' : tm.tasks params.id = some task := hget
  have hw : canTransition task.status.state .working = false :=
    (canTransition_to_working_iff _).mpr hstate
  refine ⟨?_, ?_, fun s => canTransition_to_working_iff s⟩
  · unfold sendTaskHandler
    rw [hmsg, hsk, if_neg hid]
    dsimp only
    rw [if_neg hskne, hhas, if_neg hnf, hget]
    dsimp only
    simp [TaskManager.appendHistory, TaskManager.getOrThrow, TaskManager.setTask,
      TaskManager.setWorking, TaskManager.updateStatus, TaskManager.get,
      hget', hw]
  · unfold handleStreamingRequest
    rw [hmsg, hsk, if_neg hid]
    dsimp only
    rw [if_neg hskne, hhas, if_neg hnf, hget]
    dsimp only
    simp [TaskManager.appendHistory, TaskManager.getOrThrow, TaskManager.setTask,
      TaskManager.setWorking, TaskManager.updateStatus, TaskManager.get,
      hget', hw]

/-- C10 witness: a send and a sendSubscribe against the `working` task
`taskWorking` both fail with the invalid transition while the stored
history has grown to hold the inbound message. -/
theorem c10_witness :
    (sendParamsW.id ≠ "" ∧ tmWorking.get sendParamsW.id = some taskWorking ∧
      taskWorking.status.state ∈
        ([.working, .completed, .canceled, .failed] : List TaskState)) ∧
    (((sendTaskHandler tmWorking streamInvoker sendParamsW 3).2 =
        .error (.a2a (.invalidStateTransition sendParamsW.id
          taskWorking.status.state .working)) ∧
      ((sendTaskHandler tmWorking streamInvoker sendParamsW 3).1.get
          sendParamsW.id).map Task.history =
        some (taskWorking.history ++ [userMsgW])) ∧
    ((handleStreamingRequest sendParamsW tmWorking streamInvoker {} (.str "r") 3).2.2 =
        some (.a2a (.invalidStateTransition sendParamsW.id
          taskWorking.status.state .working)) ∧
      ((handleStreamingRequest sendParamsW tmWorking streamInvoker {} (.str "r") 3).1.get
          sendParamsW.id).map Task.history =
        some (taskWorking.history ++ [userMsgW])) ∧
    (∀ s : TaskState, canTransition s .working = false ↔
        s ∈ ([.working, .completed, .canceled, .failed] : List TaskState))) :=
  ⟨⟨by decide, rfl, by decide⟩,
    c10_history_appended_on_invalid_transition tmWorking streamInvoker sendParamsW
      userMsgW "greet" taskWorking {} (.str "r") 3
      (by decide) rfl rfl (by decide) rfl rfl (by decide)⟩

/-! ## Claim C4: the streaming path, chunked skill result -/

/-- C4: a sendSubscribe request on a fresh task whose skill streams
`chunks` through an open sink returns normally having emitted, in order:
the initial `working` status event, one artifact event per chunk (each
`index: 0`, `lastChunk: false`, `append` false on the first chunk and
true on every later one — `expectedChunkEvents`), exactly one final
empty-text artifact event `{index: 0, append: true, lastChunk: true}`,
and a final status event with `final: true` and state `completed`; the
concatenation of the chunks is stored as the task's single artifact at
index 0, and the sink ends closed. -/
theorem c4_streaming_chunks
    (tm : TaskManager) (invoker : SkillInvoker) (params : SendParams)
    (msg : Message) (skillId : String) (chunks : List String)
    (reqId : JsonValueId) (now : Nat)
    (hid : params.id ≠ "") (hmsg : params.message = some msg)
    (hsk : params.metadata >>= SendMetadata.skillId = some skillId)
    (hskne : skillId ≠ "") (hhas : invoker.hasSkill skillId = true)
    (hfresh : tm.get params.id = none)
    (hinv : ∀ m t, invoker.invoke skillId m t = .ok (.streamed chunks)) :
    (handleStreamingRequest params tm invoker {} reqId now).2.2 = none ∧
    (handleStreamingRequest params tm invoker {} reqId now).2.1.events =
      .resultEvt reqId.orNull (.statusEvt params.id
          { state := .working, timestamp := some now } none)
        :: (expectedChunkEvents params.id reqId.orNull 0 chunks ++
            [ .resultEvt reqId.orNull (.artifactEvt params.id
                { parts := [.text ""], index := some 0,
                  append := some true, lastChunk := some true }),
              .resultEvt reqId.orNull (.statusEvt params.id
                { state := .completed,
                  message := some { role := .agent, parts := [.text (String.join chunks)] },
                  timestamp := some now } (some true)) ]) ∧
    ((handleStreamingRequest params tm invoker {} reqId now).1.get params.id).map
        (fun t => (t.status.state, t.artifacts)) =
      some (.completed,
        [{ parts := [.text (String.join chunks)], index := some 0,
           lastChunk := some true }]) ∧
    (handleStreamingRequest params tm invoker {} reqId now).2.1.closed = true := by
  have hnf : ¬(true = false) := by decide
  have hfresh' : tm.tasks params.id = none := hfresh
  unfold handleStreamingRequest
  rw [hmsg, hsk, if_neg hid]
  dsimp only
  rw [if_neg hskne, hhas, if_neg hnf, hfresh]
  dsimp only
  unfold TaskManager.create
  rw [hfresh']
  dsimp only
  simp [TaskManager.appendHistory, TaskManager.getOrThrow, TaskManager.setTask,
    TaskManager.setWorking, TaskManager.setCompleted, TaskManager.updateStatus,
    TaskManager.addArtifact, TaskManager.get, hinv, canTransition,
    VALID_TRANSITIONS, streamTryCatch, streamComplete, consumeChunks_open,
    SSEWriter.writeTaskStatus, SSEWriter.writeArtifact, SSEWriter.write,
    SSEWriter.writeEvent, SSEWriter.isOpen, SSEWriter.endStream]

/-- C4 witness: streaming `["A", "B"]` through an open sink produces the
expected event sequence and stored artifact. -/
theorem c4_witness :
    (sendParamsW.id ≠ "" ∧ emptyTM.get sendParamsW.id = none) ∧
    ((handleStreamingRequest sendParamsW emptyTM streamInvoker {} (.str "req-1") 3).2.2 = none ∧
     (handleStreamingRequest sendParamsW emptyTM streamInvoker {} (.str "req-1") 3).2.1.events =
       .resultEvt (JsonValueId.str "req-1").orNull (.statusEvt sendParamsW.id
           { state := .working, timestamp := some 3 } none)
         :: (expectedChunkEvents sendParamsW.id (JsonValueId.str "req-1").orNull 0 ["A", "B"] ++
             [ .resultEvt (JsonValueId.str "req-1").orNull (.artifactEvt sendParamsW.id
                 { parts := [.text ""], index := some 0,
                   append := some true, lastChunk := some true }),
               .resultEvt (JsonValueId.str "req-1").orNull (.statusEvt sendParamsW.id
                 { state := .completed,
                   message := some { role := .agent, parts := [.text (String.join ["A", "B"])] },
                   timestamp := some 3 } (some true)) ]) ∧
     ((handleStreamingRequest sendParamsW emptyTM streamInvoker {} (.str "req-1") 3).1.get
         sendParamsW.id).map (fun t => (t.status.state, t.artifacts)) =
       some (.completed,
         [{ parts := [.text (String.join ["A", "B"])], index := some 0,
            lastChunk := some true }]) ∧
     (handleStreamingRequest sendParamsW emptyTM streamInvoker {} (.str "req-1") 3).2.1.closed = true) :=
  ⟨⟨by decide, rfl⟩,
    c4_streaming_chunks emptyTM streamInvoker sendParamsW userMsgW "greet"
      ["A", "B"] (.str "req-1") 3 (by decide) rfl rfl (by decide) rfl rfl
      (fun _ _ => rfl)⟩

/-! ## Claim C8: the JSON-RPC dispatcher -/

/-- C8 (amended): `handle` always returns a response envelope (it is a
total function — errors are never thrown across the dispatcher boundary);
a handler failure is wrapped as `{jsonrpc: "2.0", id, error}` carrying the
error's code, message and data; but a missing inbound `id` is coerced to
`null` only by the invalid-version rejection — the method-not-found,
success and handler-error envelopes pass the inbound `id` through
unchanged, so a missing id stays missing there. -/
theorem c8_dispatcher {α β : Type} :
    (∀ (router : JsonRpcRouter α β) (request : JsonRpcRequest α)
        (h : Option α → Except JsError β) (e : JsError),
        request.jsonrpc = "2.0" → router.handlers request.method = some h →
        h request.params = .error e →
        router.handle request =
          { jsonrpc := "2.0", id := request.id, result := none,
            error := some { code := (toA2AError e).code,
                            message := (toA2AError e).message,
                            data := (toA2AError e).data } })
  ∧ (∀ (router : JsonRpcRouter α β) (request : JsonRpcRequest α)
        (h : Option α → Except JsError β) (r : β),
        request.jsonrpc = "2.0" → router.handlers request.method = some h →
        h request.params = .ok r →
        router.handle request =
          { jsonrpc := "2.0", id := request.id, result := some r, error := none })
  ∧ (∀ (router : JsonRpcRouter α β) (request : JsonRpcRequest α),
        (router.handle request).id =
          if request.jsonrpc ≠ "2.0" then request.id.orNull else request.id) := by
  refine ⟨?_, ?_, ?_⟩
  · intro router request h e hjson hh hcall
    unfold JsonRpcRouter.handle
    rw [if_neg (by simp [hjson]), hh]
    dsimp only
    rw [hcall]
    rfl
  · intro router request h r hjson hh hcall
    unfold JsonRpcRouter.handle
    rw [if_neg (by simp [hjson]), hh]
    dsimp only
    rw [hcall]
    rfl
  · intro router request
    unfold JsonRpcRouter.handle
    by_cases hjson : request.jsonrpc = "2.0"
    · rw [if_neg (by simp [hjson]), if_neg (by simp [hjson])]
      rcases router.handlers request.method with _ | h
      · rfl
      · dsimp only
        rcases h request.params with e | r <;> rfl
    · rw [if_pos (by simp [hjson]), if_pos (by simp [hjson])]
      rfl

/-- C8 witness: a failing handler is wrapped as an error envelope with
the request's id passed through. -/
theorem c8_witness :
    (okRouter.handlers "boom" = some (fun _ => .error (.plain "boom")) ∧
      (fun (_ : Option Unit) => (Except.error (.plain "boom") : Except JsError String))
          none = .error (.plain "boom")) ∧
    okRouter.handle { jsonrpc := "2.0", id := .str "1", method := "boom", params := none } =
      { jsonrpc := "2.0", id := .str "1", result := none,
        error := some { code := (toA2AError (.plain "boom")).code,
                        message := (toA2AError (.plain "boom")).message,
                        data := (toA2AError (.plain "boom")).data } } :=
  ⟨⟨rfl, rfl⟩,
    c8_dispatcher.1 okRouter
      { jsonrpc := "2.0", id := .str "1", method := "boom", params := none }
      (fun _ => .error (.plain "boom")) (.plain "boom") rfl rfl rfl⟩

/-- C8 counterexample: a request with no `id` (JS `undefined`) dispatched
to a succeeding handler — and to a failing one — yields an envelope whose
`id` is still `undefined`, not `null`; only the invalid-version rejection
nulls a missing id. -/
theorem c8_counterexample :
    (okRouter.handle { jsonrpc := "2.0", id := .undef, method := "test", params := none }).id =
      .undef ∧
    (okRouter.handle { jsonrpc := "2.0", id := .undef, method := "boom", params := none }).id =
      .undef ∧
    (okRouter.handle { jsonrpc := "2.0", id := .undef, method := "boom", params := none }).error =
      some { code := -32603, message := "boom", data := none } ∧
    JsonValueId.undef ≠ JsonValueId.nul ∧
    (okRouter.handle { jsonrpc := "1.0", id := .undef, method := "test", params := none }).id =
      .nul :=
  ⟨rfl, rfl, rfl, by decide, rfl⟩

/-! ## Claim C9: artifact accumulation in the store -/

/-- The `getD` after `set` at an in-bounds index yields the new element. -/
theorem list_getD_set_self {α : Type} (d : α) :
    ∀ (l : List α) (i : Nat) (a : α), i < l.length → (l.set i a).getD i d = a := by
  intro l
  induction l with
  | nil => intro i a h; exact absurd h (Nat.not_lt_zero i)
  | cons x xs ih =>
    intro i a h
    cases i with
    | zero => rfl
    | succ n => exact ih n a (Nat.lt_of_succ_lt_succ h)

/-- A list with a last element is non-empty. -/
theorem getLast?_pos {α : Type} (l : List α) (x : α)
    (h : l.getLast? = some x) : 0 < l.length := by
  cases l with
  | nil => exact Option.noConfusion h
  | cons a as => simp

/-- The `applyLastChunk` never touches the parts. -/
theorem Artifact.applyLastChunk_parts (a delta : Artifact) :
    (a.applyLastChunk delta).parts = a.parts := by
  unfold Artifact.applyLastChunk
  split <;> rfl

/-- C9 (amended): `updateArtifact(id, index, delta)` with `index` in
bounds and `delta.append` true concatenates the delta's first text part
onto the existing artifact's last part when both are text parts; when the
existing artifact has at least one part but the pair is not both text,
the delta's first part is pushed; when the existing artifact has no
parts, the delta's parts are ignored (nothing is concatenated or
pushed).  A set `delta.lastChunk` overwrites the stored `lastChunk`, and
an out-of-bounds `index` appends `delta` as a new artifact rather than
being rejected. -/
theorem c9_updateArtifact :
    (∀ (tm : TaskManager) (id : String) (task : Task) (idx : Nat) (delta : Artifact),
        tm.get id = some task → ¬(idx < task.artifacts.length) →
        (tm.updateArtifact id idx delta).map (fun r => r.1.artifacts) =
          .ok (task.artifacts ++ [delta]))
  ∧ (∀ (tm : TaskManager) (id : String) (task : Task) (idx : Nat)
        (delta existing : Artifact) (lastText newText : String),
        tm.get id = some task → idx < task.artifacts.length →
        task.artifacts.getD idx { parts := [] } = existing →
        delta.append = some true →
        existing.parts.getLast? = some (.text lastText) →
        delta.parts.head? = some (.text newText) →
        (tm.updateArtifact id idx delta).map
            (fun r => (r.1.artifacts.getD idx { parts := [] }).parts) =
          .ok (existing.parts.dropLast ++ [.text (lastText ++ newText)]))
  ∧ (∀ (tm : TaskManager) (id : String) (task : Task) (idx : Nat)
        (delta existing : Artifact) (lp np : Part),
        tm.get id = some task → idx < task.artifacts.length →
        task.artifacts.getD idx { parts := [] } = existing →
        delta.append = some true →
        existing.parts.getLast? = some lp →
        delta.parts.head? = some np →
        (isTextPart lp = false ∨ isTextPart np = false) →
        (tm.updateArtifact id idx delta).map
            (fun r => (r.1.artifacts.getD idx { parts := [] }).parts) =
          .ok (existing.parts ++ [np]))
  ∧ (∀ (tm : TaskManager) (id : String) (task : Task) (idx : Nat)
        (delta existing : Artifact),
        tm.get id = some task → idx < task.artifacts.length →
        task.artifacts.getD idx { parts := [] } = existing →
        existing.parts = [] →
        (tm.updateArtifact id idx delta).map
            (fun r => (r.1.artifacts.getD idx { parts := [] }).parts) =
          .ok existing.parts)
  ∧ (∀ (tm : TaskManager) (id : String) (task : Task) (idx : Nat)
        (delta existing : Artifact) (b : Bool),
        tm.get id = some task → idx < task.artifacts.length →
        task.artifacts.getD idx { parts := [] } = existing →
        delta.lastChunk = some b →
        (tm.updateArtifact id idx delta).map
            (fun r => (r.1.artifacts.getD idx { parts := [] }).lastChunk) =
          .ok (some b)) := by
  refine ⟨?_, ?_, ?_, ?_, ?_⟩
  · intro tm id task idx delta hget hidx
    unfold TaskManager.updateArtifact
    rw [TaskManager.getOrThrow_of_get _ _ _ hget]
    dsimp only
    rw [if_neg hidx]
    rfl
  · intro tm id task idx delta existing lastText newText hget hidx hex happ hlast hnew
    have hlen : 0 < existing.parts.length := getLast?_pos _ _ hlast
    unfold TaskManager.updateArtifact
    rw [TaskManager.getOrThrow_of_get _ _ _ hget]
    dsimp only
    rw [if_pos hidx]
    simp only [Except.map]
    rw [list_getD_set_self _ _ _ _ hidx, Artifact.applyLastChunk_parts, hex]
    unfold Artifact.applyAppend
    rw [if_pos ⟨happ, hlen⟩, hnew]
    dsimp only
    rw [hlast]
  · intro tm id task idx delta existing lp np hget hidx hex happ hlast hnew hnb
    have hlen : 0 < existing.parts.length := getLast?_pos _ _ hlast
    unfold TaskManager.updateArtifact
    rw [TaskManager.getOrThrow_of_get _ _ _ hget]
    dsimp only
    rw [if_pos hidx]
    simp only [Except.map]
    rw [list_getD_set_self _ _ _ _ hidx, Artifact.applyLastChunk_parts, hex]
    unfold Artifact.applyAppend
    rw [if_pos ⟨happ, hlen⟩, hnew]
    dsimp only
    rw [hlast]
    rcases lp with lt | lf | ld <;> rcases np with nt | nf | nd <;>
      first
      | rfl
      | (rcases hnb with hnb | hnb <;> exact Bool.noConfusion hnb)
  · intro tm id task idx delta existing hget hidx hex hempty
    unfold TaskManager.updateArtifact
    rw [TaskManager.getOrThrow_of_get _ _ _ hget]
    dsimp only
    rw [if_pos hidx]
    simp only [Except.map]
    rw [list_getD_set_self _ _ _ _ hidx, Artifact.applyLastChunk_parts, hex]
    unfold Artifact.applyAppend
    rw [if_neg (by simp [hempty])]
  · intro tm id task idx delta existing b hget hidx hex hlc
    unfold TaskManager.updateArtifact
    rw [TaskManager.getOrThrow_of_get _ _ _ hget]
    dsimp only
    rw [if_pos hidx]
    simp only [Except.map]
    rw [list_getD_set_self _ _ _ _ hidx]
    unfold Artifact.applyLastChunk
    rw [hlc]

/-- C9 witness: appending `" World"` onto an artifact holding `"Hello"`
concatenates the text; an out-of-bounds index appends a new artifact. -/
theorem c9_witness :
    (tmTextArt.get "t1" = some taskTextArt ∧ (0 : Nat) < taskTextArt.artifacts.length) ∧
    ((tmTextArt.updateArtifact "t1" 0
        { parts := [.text " World"], append := some true }).map
        (fun r => (r.1.artifacts.getD 0 { parts := [] }).parts) =
      .ok ([Part.text "Hello"].dropLast ++ [.text ("Hello" ++ " World")]) ∧
     (tmTextArt.updateArtifact "t1" 5
        { parts := [.text "New"] }).map (fun r => r.1.artifacts) =
      .ok (taskTextArt.artifacts ++ [{ parts := [.text "New"] }])) :=
  ⟨⟨rfl, by decide⟩,
    ⟨c9_updateArtifact.2.1 tmTextArt "t1" taskTextArt 0
        { parts := [.text " World"], append := some true }
        { parts := [.text "Hello"] } "Hello" " World"
        rfl (by decide) rfl rfl rfl rfl,
      c9_updateArtifact.1 tmTextArt "t1" taskTextArt 5
        { parts := [.text "New"] } rfl (by decide)⟩⟩

/-- C9 counterexample: when the existing artifact has an empty parts
list, an `append: true` delta carrying a text part is silently ignored —
nothing is concatenated and nothing is pushed — whereas the claim says a
new part would be pushed. -/
theorem c9_counterexample :
    (tmEmptyArt.updateArtifact "t1" 0
        { parts := [.text "x"], append := some true }).map
        (fun r => r.1.artifacts.map Artifact.parts) = .ok [[]] ∧
    ([] : List Part) ≠ [Part.text "x"] :=
  ⟨rfl, by decide⟩


end A2A
